import Mathlib

/-!
Verification of the MarginDensityDrift (MD3) detector of this repository.

The repository ships the detector's documentation and an example notebook;
the class `alibi_detect.cd.margindensity.MarginDensityDrift` itself is not
among the provided source files, so the detector's operations are modelled
from the spec, faithful to its words (section references are to spec.md).
Probabilities and densities are modelled as rationals, so that every
definition is executable and every concrete run can be checked by `decide`.
-/

namespace MD3

/-- Errors of the detector, from the spec's error taxonomy (§7):
`ConfigError` for invalid construction parameters, `EmptyBatchError` for a
zero-instance batch, `ClassifierError` wrapping a classifier failure. -/
inductive DetectError where
  | configError (msg : String)
  | emptyBatchError
  | classifierError (cause : String)
deriving DecidableEq, Repr

/-- Direction of a range violation: margin density below the low bound or
above the high bound of the acceptable range. -/
inductive Direction where
  | below
  | above
deriving DecidableEq, Repr

/-- Modelled from the spec: the data model of `MarginDensityDrift.__init__`
(§3). `margin` is the half-width of the band around probability 0.5;
`classifier` is the externally owned callable producing one positive-class
probability per instance (a failing call is an `Except.error` carrying the
underlying cause); `density_range` is the optional acceptable band for
margin density; `metadata` carries free-form descriptive tags. -/
structure MarginDensityDrift (α : Type) where
  margin : ℚ
  classifier : List α → Except String (List ℚ)
  density_range : Option (ℚ × ℚ)
  metadata : List (String × String)

/-- An instance with probability `p` is in-margin iff `|p - 0.5| < margin`,
with strict inequality (§4.2). -/
def inMargin (margin p : ℚ) : Bool :=
  decide (|p - 1/2| < margin)

/-- Margin density of a probability vector: the number of in-margin
probabilities divided by the total count (§4.2). -/
def marginDensityOf (margin : ℚ) (ps : List ℚ) : ℚ :=
  (ps.countP (inMargin margin) : ℚ) / (ps.length : ℚ)

/-- A probability vector is well-formed for a batch when it has one entry
per instance and every entry lies in `[0, 1]` (§6; NaN, which a rational
cannot represent, is likewise malformed). -/
def wellFormedOutput (batchLen : ℕ) (ps : List ℚ) : Bool :=
  decide (ps.length = batchLen) && ps.all (fun p => decide (0 ≤ p ∧ p ≤ 1))

/-- Modelled from the spec: `MarginDensityDrift.score` (§4.2). Fails with
`EmptyBatchError` on a zero-instance batch, invokes the classifier, fails
with `ClassifierError` when the classifier raises or its output is
malformed, and otherwise returns the margin density. -/
def MarginDensityDrift.score (d : MarginDensityDrift α) (batch : List α) :
    Except DetectError ℚ :=
  if batch.isEmpty then
    .error .emptyBatchError
  else
    match d.classifier batch with
    | .error cause => .error (.classifierError cause)
    | .ok ps =>
        if wellFormedOutput batch.length ps then
          .ok (marginDensityOf d.margin ps)
        else
          .error (.classifierError "malformed classifier output")

/-- The data section of a predict result: exactly the fields `is_drift`,
`margin`, `margin_density`, `density_range` and `direction` (§6). -/
structure DriftData where
  is_drift : ℕ
  margin : ℚ
  margin_density : ℚ
  density_range : Option (ℚ × ℚ)
  direction : Option Direction
deriving DecidableEq, Repr

/-- A predict result: a `meta` section carrying the detector's metadata and
a `data` section (§6). -/
structure DriftResult where
  meta : List (String × String)
  data : DriftData
deriving DecidableEq, Repr

/-- The direction of the range violation for a margin density `md` (§4.3,
steps 2 and 3): no determination when `density_range` is absent; otherwise
`below` if `md` is strictly under the low bound, `above` if strictly over
the high bound, and no violation in-range with both bounds inclusive. -/
def decideDirection (density_range : Option (ℚ × ℚ)) (md : ℚ) : Option Direction :=
  match density_range with
  | none => none
  | some (lo, hi) =>
      if md < lo then some .below
      else if hi < md then some .above
      else none

/-- Modelled from the spec: `MarginDensityDrift.predict` (§4.3). Computes
the margin density via `score` (propagating its errors), derives the
direction of any range violation, sets `is_drift = 1` iff a direction was
found, and assembles the structured result. -/
def MarginDensityDrift.predict (d : MarginDensityDrift α) (batch : List α) :
    Except DetectError DriftResult :=
  match d.score batch with
  | .error e => .error e
  | .ok md =>
      let dir : Option Direction := decideDirection d.density_range md
      .ok { meta := d.metadata
            data := { is_drift := if dir.isSome then 1 else 0
                      margin := d.margin
                      margin_density := md
                      density_range := d.density_range
                      direction := dir } }

/-- Result of a successful construction: the detector together with the
warning-level notices emitted while constructing it (§4.1). -/
structure InitResult (α : Type) where
  detector : MarginDensityDrift α
  warnings : List String

/-- The warning the constructor logs when `density_range` is not set, as
observed in the example notebook's output. -/
def missingRangeWarning : String :=
  "Need to set density_range to detect data drift."

/-- A provided `density_range` is bad when `low > high` or a bound falls
outside `[0, 1]`; an omitted range is never bad (§4.1). -/
def badRangeB (dr : Option (ℚ × ℚ)) : Bool :=
  match dr with
  | none => false
  | some (lo, hi) => decide (lo > hi ∨ lo < 0 ∨ 1 < lo ∨ hi < 0 ∨ 1 < hi)

/-- Modelled from the spec: construction and validation (§4.1). Fails with
`ConfigError` when `margin` is not in `(0, 0.5]` (a rational is always
finite) or when a provided `density_range` is bad; succeeds, with a
warning-level notice when `density_range` is omitted. -/
def init (margin : ℚ) (classifier : List α → Except String (List ℚ))
    (density_range : Option (ℚ × ℚ)) (metadata : List (String × String)) :
    Except DetectError (InitResult α) :=
  if ¬ (0 < margin ∧ margin ≤ 1/2) then
    .error (.configError "margin must be a finite number in (0, 0.5]")
  else if badRangeB density_range then
    .error (.configError "density_range bounds must satisfy 0 <= low <= high <= 1")
  else
    .ok { detector := { margin := margin, classifier := classifier,
                        density_range := density_range, metadata := metadata }
          warnings := if density_range.isNone then [missingRangeWarning] else [] }

/-- A detector is uncalibrated when it has no density range (§3). -/
def MarginDensityDrift.uncalibrated (d : MarginDensityDrift α) : Bool :=
  d.density_range.isNone

/-- The persistable configuration of a detector: exactly `margin`,
`density_range` and `metadata`; the classifier is persisted by an external
collaborator (§4.4). -/
structure DetectorConfig where
  margin : ℚ
  density_range : Option (ℚ × ℚ)
  metadata : List (String × String)
deriving DecidableEq, Repr

/-- Modelled from the spec: `save_detector` serialises the detector's
reconstructable state (§4.4, §6). -/
def save_detector (d : MarginDensityDrift α) : DetectorConfig :=
  { margin := d.margin, density_range := d.density_range, metadata := d.metadata }

/-- Modelled from the spec: `load_detector` reconstructs a detector from a
saved configuration and a reattached classifier, applying the same
validation rules as construction (§4.4, §6). -/
def load_detector (cfg : DetectorConfig)
    (classifier : List α → Except String (List ℚ)) :
    Except DetectError (InitResult α) :=
  init cfg.margin classifier cfg.density_range cfg.metadata

/-- State-passing form of `score`: the call returns its result together
with the detector state after the call (§4.2 declares `score` free of side
effects, so the state is returned unchanged). -/
def MarginDensityDrift.scoreS (d : MarginDensityDrift α) (batch : List α) :
    Except DetectError ℚ × MarginDensityDrift α :=
  (d.score batch, d)

/-- State-passing form of `predict` (§4.3 declares `predict` free of
detector-state mutation). -/
def MarginDensityDrift.predictS (d : MarginDensityDrift α) (batch : List α) :
    Except DetectError DriftResult × MarginDensityDrift α :=
  (d.predict batch, d)

/-- Runs `predict` on a sequence of batches, threading the detector state
through the calls, and collects the results with the final state. -/
def runPredicts (d : MarginDensityDrift α) :
    List (List α) → List (Except DetectError DriftResult) × MarginDensityDrift α
  | [] => ([], d)
  | b :: bs =>
      let r := d.predictS b
      let rest := runPredicts r.2 bs
      (r.1 :: rest.1, rest.2)

/-- Witness detector: margin `0.1`, classifier mapping every instance to
probability `0.3`, no density range. -/
def w1D : MarginDensityDrift ℕ :=
  { margin := 1/10
    classifier := fun xs => .ok (xs.map fun _ => (3/10 : ℚ))
    density_range := none
    metadata := [] }

/-- Witness detector for C2: margin `0.1`, classifier mapping every
instance to probability `0.5`, density range `(0.25, 0.5)`. -/
def w2D : MarginDensityDrift ℕ :=
  { margin := 1/10
    classifier := fun xs => .ok (xs.map fun _ => (1/2 : ℚ))
    density_range := some (1/4, 1/2)
    metadata := [] }

/-- The result of the C2 witness detector's `predict` on the batch
`[0]`. -/
def w2Res : DriftResult :=
  { meta := []
    data := { is_drift := 1, margin := 1/10, margin_density := 1,
              density_range := some (1/4, 1/2), direction := some .above } }

/-- The probabilities of the spec's worked example. -/
def exampleProbs : List ℚ := [52/100, 48/100, 9/10, 1/10, 1/2]

/-- The detector of the spec's worked example: margin `0.1` and a
classifier returning the example probabilities. -/
def exampleDetector : MarginDensityDrift ℕ :=
  { margin := 1/10
    classifier := fun _ => .ok exampleProbs
    density_range := none
    metadata := [] }

/-- The detector the C8 and C10 witnesses construct. -/
def w8R : InitResult ℕ :=
  ⟨⟨1/10, w1D.classifier, some (0, 1/2), [("key", "value")]⟩, []⟩

/-! Helper lemmas. -/

/-- Well-formedness of classifier output unfolded to a proposition. -/
theorem wellFormedOutput_iff (n : ℕ) (ps : List ℚ) :
    wellFormedOutput n ps = true ↔ ps.length = n ∧ ∀ p ∈ ps, 0 ≤ p ∧ p ≤ 1 := by
  simp [wellFormedOutput, List.all_eq_true]

/-- On a non-empty batch with a well-behaved classifier, `score` succeeds
with the margin density of the returned probabilities. -/
theorem score_ok_of_wellFormed {α : Type} (d : MarginDensityDrift α)
    (batch : List α) (ps : List ℚ) (hne : batch ≠ [])
    (hc : d.classifier batch = .ok ps)
    (hwf : wellFormedOutput batch.length ps = true) :
    d.score batch = .ok (marginDensityOf d.margin ps) := by
  unfold MarginDensityDrift.score
  rw [List.isEmpty_eq_false_iff_exists_mem.mpr
    (by cases batch with
        | nil => exact absurd rfl hne
        | cons a l => exact ⟨a, List.mem_cons_self a l⟩)]
  · rw [hc]
    simp [hwf]

/-- A successful `predict` is the structured result built from the
successful `score` and the direction decision. -/
theorem predict_ok {α : Type} (d : MarginDensityDrift α) (batch : List α)
    (md : ℚ) (hs : d.score batch = .ok md) :
    d.predict batch = .ok
      { meta := d.metadata
        data := { is_drift := if (decideDirection d.density_range md).isSome then 1 else 0
                  margin := d.margin
                  margin_density := md
                  density_range := d.density_range
                  direction := decideDirection d.density_range md } } := by
  unfold MarginDensityDrift.predict
  rw [hs]

/-- Inversion of a successful `predict`: the result echoes the detector's
metadata, margin and density range, and its density, direction and drift
flag come from `score` and the direction decision. -/
theorem predict_ok_inv {α : Type} (d : MarginDensityDrift α) (batch : List α)
    (pr : DriftResult) (h : d.predict batch = .ok pr) :
    pr.meta = d.metadata ∧ pr.data.margin = d.margin ∧
    pr.data.density_range = d.density_range ∧
    ∃ md, d.score batch = .ok md ∧ pr.data.margin_density = md ∧
      pr.data.direction = decideDirection d.density_range md ∧
      pr.data.is_drift = (if (decideDirection d.density_range md).isSome then 1 else 0) := by
  unfold MarginDensityDrift.predict at h
  cases hsc : d.score batch with
  | error e => rw [hsc] at h; cases h
  | ok md =>
      rw [hsc] at h
      cases h
      exact ⟨rfl, rfl, rfl, md, rfl, rfl, rfl, rfl⟩

/-! Claim theorems. -/

/-- C1: for every margin in `(0, 0.5]`, every non-empty batch and every
classifier returning one probability in `[0, 1]` per instance, `score`
returns the count of in-margin instances (strict test `|p - 0.5| < margin`)
divided by the total count, a value in `[0, 1]`. -/
theorem score_margin_density_in_unit_interval {α : Type}
    (d : MarginDensityDrift α) (batch : List α) (ps : List ℚ)
    (hm0 : 0 < d.margin) (hm1 : d.margin ≤ 1/2) (hne : batch ≠ [])
    (hc : d.classifier batch = .ok ps)
    (hlen : ps.length = batch.length)
    (hval : ∀ p ∈ ps, 0 ≤ p ∧ p ≤ 1) :
    d.score batch = .ok ((ps.countP (inMargin d.margin) : ℚ) / (batch.length : ℚ)) ∧
    0 ≤ marginDensityOf d.margin ps ∧ marginDensityOf d.margin ps ≤ 1 := by
  have hwf : wellFormedOutput batch.length ps = true :=
    (wellFormedOutput_iff batch.length ps).mpr ⟨hlen, hval⟩
  have hlpos : 0 < ps.length := by
    rw [hlen]
    exact List.length_pos.mpr hne
  refine ⟨?_, ?_, ?_⟩
  · rw [score_ok_of_wellFormed d batch ps hne hc hwf]
    unfold marginDensityOf
    rw [hlen]
  · exact div_nonneg (Nat.cast_nonneg _) (Nat.cast_nonneg _)
  · unfold marginDensityOf
    rw [div_le_one (by exact_mod_cast hlpos)]
    exact_mod_cast List.countP_le_length _

/-- Witness for C1 at the batch `[0]`. -/
theorem score_margin_density_in_unit_interval_witness :
    w1D.score [0] = .ok ((([(3/10 : ℚ)].countP (inMargin w1D.margin)) : ℚ) /
      ((([0] : List ℕ).length : ℚ))) ∧
    0 ≤ marginDensityOf w1D.margin [3/10] ∧ marginDensityOf w1D.margin [3/10] ≤ 1 :=
  score_margin_density_in_unit_interval w1D [0] [3/10] (by norm_num [w1D])
    (by norm_num [w1D]) (by simp) rfl rfl
    (by intro p hp; rw [List.mem_singleton] at hp; subst hp; norm_num)

/-- C2: for a detector with `density_range = (low, high)`, `low ≤ high`,
and a batch whose margin density is `md`, `predict` reports `below` with
drift if `md < low`, `above` with drift if `md > high`, and no direction
with no drift otherwise, both bounds inclusive of the no-drift region. -/
theorem predict_range_decision {α : Type} (d : MarginDensityDrift α)
    (batch : List α) (lo hi md : ℚ) (hr : d.density_range = some (lo, hi))
    (hlh : lo ≤ hi) (hs : d.score batch = .ok md) :
    ∃ res, d.predict batch = .ok res ∧ res.data.margin_density = md ∧
      (md < lo → res.data.direction = some .below ∧ res.data.is_drift = 1) ∧
      (hi < md → res.data.direction = some .above ∧ res.data.is_drift = 1) ∧
      (lo ≤ md → md ≤ hi → res.data.direction = none ∧ res.data.is_drift = 0) := by
  refine ⟨_, predict_ok d batch md hs, rfl, ?_, ?_, ?_⟩
  · intro h
    simp [decideDirection, hr, h]
  · intro h
    have h1 : ¬ md < lo := not_lt.mpr (hlh.trans h.le)
    simp [decideDirection, hr, h, h1]
  · intro h1 h2
    simp [decideDirection, hr, not_lt.mpr h1, not_lt.mpr h2]

/-- Evaluation of the witness detector's score on the batch `[0]`: the one
probability `0.5` is dead-centre, hence in-margin, so the density is 1. -/
theorem w2D_score_eval : w2D.score [0] = .ok 1 := by
  have h := score_ok_of_wellFormed w2D [0] [1/2] (by simp) rfl
    ((wellFormedOutput_iff _ _).mpr (by
      refine ⟨rfl, ?_⟩
      intro p hp
      rw [List.mem_singleton] at hp
      subst hp
      norm_num))
  rw [h]
  have : marginDensityOf w2D.margin [1/2] = 1 := by
    unfold marginDensityOf
    have hc : List.countP (inMargin w2D.margin) [1/2] = 1 := by
      rw [List.countP_cons, List.countP_nil]
      have : inMargin w2D.margin (1/2) = true := by
        simp only [inMargin, w2D, decide_eq_true_eq]
        norm_num
      rw [this]
      simp
    rw [hc]
    norm_num
  rw [this]

/-- Witness for C2: the witness detector's density 1 exceeds the high
bound `0.5`, so drift is flagged with direction `above`. -/
theorem predict_range_decision_witness :
    ∃ res, w2D.predict [0] = .ok res ∧ res.data.direction = some .above ∧
      res.data.is_drift = 1 := by
  obtain ⟨res, hp, _, _, habove, _⟩ :=
    predict_range_decision w2D [0] (1/4) (1/2) 1 rfl (by norm_num) w2D_score_eval
  exact ⟨res, hp, habove (by norm_num)⟩

/-- C3: construction without a `density_range` succeeds, emits a
warning-level notice, marks the detector uncalibrated, and every
subsequent successful `predict` reports `is_drift = 0` with no
direction. -/
theorem init_without_range_fail_open {α : Type} (margin : ℚ)
    (classifier : List α → Except String (List ℚ))
    (metadata : List (String × String)) (hm : 0 < margin ∧ margin ≤ 1/2) :
    ∃ r : InitResult α, init margin classifier none metadata = .ok r ∧
      r.warnings ≠ [] ∧ r.detector.uncalibrated = true ∧
      ∀ (batch : List α) (md : ℚ), r.detector.score batch = .ok md →
        ∃ res, r.detector.predict batch = .ok res ∧
          res.data.is_drift = 0 ∧ res.data.direction = none := by
  have h1 : init margin classifier none metadata =
      .ok ⟨⟨margin, classifier, none, metadata⟩, [missingRangeWarning]⟩ := by
    unfold init
    rw [if_neg (not_not_intro hm)]
    rfl
  refine ⟨_, h1, ?_, rfl, ?_⟩
  · simp [missingRangeWarning]
  · intro batch md hs
    exact ⟨_, predict_ok _ batch md hs, by simp [decideDirection],
      by simp [decideDirection]⟩

/-- Witness for C3 at margin `0.1` with the witness classifier. -/
theorem init_without_range_fail_open_witness :
    ∃ r : InitResult ℕ, init (1/10) w1D.classifier none [] = .ok r ∧
      r.warnings ≠ [] ∧ r.detector.uncalibrated = true ∧
      ∀ (batch : List ℕ) (md : ℚ), r.detector.score batch = .ok md →
        ∃ res, r.detector.predict batch = .ok res ∧
          res.data.is_drift = 0 ∧ res.data.direction = none :=
  init_without_range_fail_open (1/10) w1D.classifier [] (by norm_num)

/-- The in-margin test unfolded to a proposition. -/
theorem inMargin_eq_true_iff (m p : ℚ) : inMargin m p = true ↔ |p - 1/2| < m := by
  simp [inMargin]

/-- In-margin decisions on the worked example: `0.52`, `0.48` and `0.5`
are strictly within `0.1` of `0.5`; `0.9` and `0.1` are not. -/
theorem exampleProbs_inMargin_eval :
    inMargin (1/10) (52/100) = true ∧ inMargin (1/10) (48/100) = true ∧
    inMargin (1/10) (1/2) = true ∧
    inMargin (1/10) (9/10) = false ∧ inMargin (1/10) (1/10) = false := by
  refine ⟨?_, ?_, ?_, ?_, ?_⟩
  · rw [inMargin_eq_true_iff, abs_sub_lt_iff]
    constructor <;> norm_num
  · rw [inMargin_eq_true_iff, abs_sub_lt_iff]
    constructor <;> norm_num
  · rw [inMargin_eq_true_iff, abs_sub_lt_iff]
    constructor <;> norm_num
  · rw [Bool.eq_false_iff, Ne, inMargin_eq_true_iff, abs_sub_lt_iff]
    intro h
    have := h.1
    norm_num at this
  · rw [Bool.eq_false_iff, Ne, inMargin_eq_true_iff, abs_sub_lt_iff]
    intro h
    have := h.2
    norm_num at this

/-- Score of the worked example: three of the five probabilities are
in-margin, so the margin density is `3/5 = 0.6`. -/
theorem exampleDetector_score_eval :
    exampleDetector.score [0, 1, 2, 3, 4] = .ok (3/5) := by
  obtain ⟨h1, h2, h3, h4, h5⟩ := exampleProbs_inMargin_eval
  have h := score_ok_of_wellFormed exampleDetector [0, 1, 2, 3, 4] exampleProbs
    (by simp) rfl
    ((wellFormedOutput_iff _ _).mpr (by
      refine ⟨rfl, ?_⟩
      intro p hp
      simp only [exampleProbs, List.mem_cons, List.not_mem_nil, or_false] at hp
      rcases hp with rfl | rfl | rfl | rfl | rfl <;> constructor <;> norm_num))
  rw [h]
  have hc : exampleProbs.countP (inMargin exampleDetector.margin) = 3 := by
    show exampleProbs.countP (inMargin (1/10)) = 3
    simp only [exampleProbs, List.countP_cons, List.countP_nil]
    rw [h1, h2, h3, h4, h5]
    simp
  have hlen : (exampleProbs.length : ℚ) = 5 := by
    simp [exampleProbs]
  unfold marginDensityOf
  rw [hc, hlen]
  norm_num

/-- C4 counterexample: on the spec's worked example the score is `0.6`,
not the claimed `0.4`, because the probability `0.5` is itself in-margin
(`|0.5 - 0.5| = 0 < 0.1`). -/
theorem example_scenario_counterexample :
    exampleDetector.score [0, 1, 2, 3, 4] ≠ .ok (2/5) ∧
    exampleDetector.score [0, 1, 2, 3, 4] = .ok (3/5) ∧
    inMargin (1/10) (1/2) = true := by
  refine ⟨?_, exampleDetector_score_eval, exampleProbs_inMargin_eval.2.2.1⟩
  rw [exampleDetector_score_eval]
  intro h
  rw [Except.ok.injEq] at h
  norm_num at h

/-- C4 (amended): on probabilities `[0.52, 0.48, 0.9, 0.1, 0.5]` with
margin `0.1`, the in-margin set is exactly `{0.52, 0.48, 0.5}` — the rule
`|p - 0.5| < 0.1` also admits `0.5` — so `score` returns
`margin_density = 3/5 = 0.6`. -/
theorem example_scenario_amended :
    exampleDetector.score [0, 1, 2, 3, 4] = .ok (3/5) ∧
    exampleProbs.countP (inMargin (1/10)) = 3 ∧
    inMargin (1/10) (52/100) = true ∧ inMargin (1/10) (48/100) = true ∧
    inMargin (1/10) (1/2) = true ∧
    inMargin (1/10) (9/10) = false ∧ inMargin (1/10) (1/10) = false := by
  obtain ⟨h1, h2, h3, h4, h5⟩ := exampleProbs_inMargin_eval
  refine ⟨exampleDetector_score_eval, ?_, h1, h2, h3, h4, h5⟩
  simp only [exampleProbs, List.countP_cons, List.countP_nil]
  rw [h1, h2, h3, h4, h5]
  simp

/-- C5: every successful `predict` result consists of a `meta` section
equal to the detector's metadata and a `data` section whose fields are
exactly `is_drift` (0 or 1), `margin`, `margin_density`, `density_range`
and `direction` (`below`, `above` or none); the final conjunct rebuilds
the result from those fields alone. -/
theorem predict_result_shape {α : Type} (d : MarginDensityDrift α)
    (batch : List α) (res : DriftResult) (h : d.predict batch = .ok res) :
    res.meta = d.metadata ∧
    (res.data.is_drift = 0 ∨ res.data.is_drift = 1) ∧
    res.data.margin = d.margin ∧
    res.data.density_range = d.density_range ∧
    (res.data.direction = none ∨ res.data.direction = some .below ∨
      res.data.direction = some .above) ∧
    res = { meta := res.meta
            data := { is_drift := res.data.is_drift
                      margin := res.data.margin
                      margin_density := res.data.margin_density
                      density_range := res.data.density_range
                      direction := res.data.direction } } := by
  obtain ⟨hmeta, hmargin, hrange, md, hs, hmd, hdir, hdrift⟩ :=
    predict_ok_inv d batch res h
  refine ⟨hmeta, ?_, hmargin, hrange, ?_, rfl⟩
  · rw [hdrift]
    cases (decideDirection d.density_range md).isSome <;> simp
  · rw [hdir]
    cases d.density_range with
    | none => simp [decideDirection]
    | some p =>
        obtain ⟨lo, hi⟩ := p
        by_cases h1 : md < lo
        · simp [decideDirection, h1]
        · by_cases h2 : hi < md
          · simp [decideDirection, h1, h2]
          · simp [decideDirection, h1, h2]

/-- Full evaluation of the C2 witness detector's `predict` on `[0]`. -/
theorem w2D_predict_eval : w2D.predict [0] = .ok w2Res := by
  have h := predict_ok w2D [0] 1 w2D_score_eval
  have hdir : decideDirection w2D.density_range 1 = some .above := by
    show decideDirection (some (1/4, 1/2)) 1 = some .above
    have hn1 : ¬ (1 : ℚ) < 1/4 := by norm_num
    have hp2 : (1 : ℚ)/2 < 1 := by norm_num
    simp only [decideDirection]
    rw [if_neg hn1, if_pos hp2]
  rw [hdir] at h
  exact h

/-- Witness for C5 at the C2 witness detector and batch `[0]`. -/
theorem predict_result_shape_witness :
    w2Res.meta = w2D.metadata ∧
    (w2Res.data.is_drift = 0 ∨ w2Res.data.is_drift = 1) ∧
    w2Res.data.margin = w2D.margin ∧
    w2Res.data.density_range = w2D.density_range ∧
    (w2Res.data.direction = none ∨ w2Res.data.direction = some .below ∨
      w2Res.data.direction = some .above) ∧
    w2Res = { meta := w2Res.meta
              data := { is_drift := w2Res.data.is_drift
                        margin := w2Res.data.margin
                        margin_density := w2Res.data.margin_density
                        density_range := w2Res.data.density_range
                        direction := w2Res.data.direction } } :=
  predict_result_shape w2D [0] w2Res w2D_predict_eval

/-- C6: construction fails with `ConfigError`, producing no detector,
whenever `margin` lies outside `(0, 0.5]` or a provided `density_range`
has `low > high` or a bound outside `[0, 1]`. -/
theorem init_invalid_config {α : Type} (margin : ℚ)
    (classifier : List α → Except String (List ℚ))
    (density_range : Option (ℚ × ℚ)) (metadata : List (String × String))
    (h : ¬ (0 < margin ∧ margin ≤ 1/2) ∨
      ∃ lo hi, density_range = some (lo, hi) ∧
        (lo > hi ∨ lo < 0 ∨ 1 < lo ∨ hi < 0 ∨ 1 < hi)) :
    ∃ msg, init margin classifier density_range metadata =
      .error (.configError msg) := by
  by_cases hm : ¬ (0 < margin ∧ margin ≤ 1/2)
  · exact ⟨"margin must be a finite number in (0, 0.5]", by
      unfold init
      rw [if_pos hm]⟩
  · rcases h with h | ⟨lo, hi, hdr, hbad⟩
    · exact absurd h hm
    · subst hdr
      have hbb : badRangeB (some (lo, hi)) = true := by
        simp only [badRangeB, decide_eq_true_eq]
        exact hbad
      refine ⟨"density_range bounds must satisfy 0 <= low <= high <= 1", ?_⟩
      unfold init
      rw [if_neg hm, if_pos hbb]

/-- Witness for C6 at the invalid margin `0`. -/
theorem init_invalid_config_witness :
    ∃ msg, init (0 : ℚ) w1D.classifier none [] = .error (.configError msg) :=
  init_invalid_config 0 w1D.classifier none []
    (Or.inl (fun hcon => lt_irrefl 0 hcon.1))

/-- A non-empty list is not `isEmpty`. -/
theorem isEmpty_false_of_ne_nil {α : Type} {l : List α} (h : l ≠ []) :
    l.isEmpty = false := by
  cases l with
  | nil => exact absurd rfl h
  | cons a t => rfl

/-- On a non-empty batch, a raising classifier makes `score` fail with
`ClassifierError` wrapping the cause. -/
theorem score_eq_of_classifier_raises {α : Type} (d : MarginDensityDrift α)
    (batch : List α) (cause : String) (hne : batch ≠ [])
    (hc : d.classifier batch = .error cause) :
    d.score batch = .error (.classifierError cause) := by
  unfold MarginDensityDrift.score
  rw [isEmpty_false_of_ne_nil hne, hc]
  rfl

/-- On a non-empty batch, malformed classifier output makes `score` fail
with `ClassifierError`. -/
theorem score_eq_of_malformed {α : Type} (d : MarginDensityDrift α)
    (batch : List α) (ps : List ℚ) (hne : batch ≠ [])
    (hc : d.classifier batch = .ok ps)
    (hwf : wellFormedOutput batch.length ps = false) :
    d.score batch = .error (.classifierError "malformed classifier output") := by
  unfold MarginDensityDrift.score
  rw [isEmpty_false_of_ne_nil hne, hc]
  show (if wellFormedOutput batch.length ps = true
      then (Except.ok (marginDensityOf d.margin ps) : Except DetectError ℚ)
      else Except.error (DetectError.classifierError "malformed classifier output")) =
    Except.error (DetectError.classifierError "malformed classifier output")
  rw [hwf]
  rfl

/-- C7: `score` on an empty batch fails with `EmptyBatchError`; a raising
classifier or malformed output (wrong length or a value outside `[0, 1]`)
makes `score` fail with `ClassifierError` wrapping the cause; and
`predict` propagates every `score` error unchanged. -/
theorem score_error_conditions {α : Type} (d : MarginDensityDrift α)
    (batch : List α) :
    (batch = [] → d.score batch = .error .emptyBatchError) ∧
    (∀ cause, batch ≠ [] → d.classifier batch = .error cause →
      d.score batch = .error (.classifierError cause)) ∧
    (∀ ps, batch ≠ [] → d.classifier batch = .ok ps →
      ¬ (ps.length = batch.length ∧ ∀ p ∈ ps, 0 ≤ p ∧ p ≤ 1) →
      ∃ cause, d.score batch = .error (.classifierError cause)) ∧
    (∀ e, d.score batch = .error e → d.predict batch = .error e) := by
  refine ⟨?_, ?_, ?_, ?_⟩
  · intro hb
    subst hb
    rfl
  · intro cause hne hc
    exact score_eq_of_classifier_raises d batch cause hne hc
  · intro ps hne hc hbad
    refine ⟨"malformed classifier output", ?_⟩
    refine score_eq_of_malformed d batch ps hne hc ?_
    rw [Bool.eq_false_iff, Ne, wellFormedOutput_iff]
    exact hbad
  · intro e hs
    unfold MarginDensityDrift.predict
    rw [hs]

/-- Witness for C7: the empty batch fails with `EmptyBatchError` in both
`score` and `predict`. -/
theorem score_error_conditions_witness :
    w1D.score ([] : List ℕ) = .error .emptyBatchError ∧
    w1D.predict ([] : List ℕ) = .error .emptyBatchError :=
  ⟨(score_error_conditions w1D []).1 rfl,
   (score_error_conditions w1D []).2.2.2 .emptyBatchError
     ((score_error_conditions w1D []).1 rfl)⟩

/-- Inversion of a successful construction: the detector stores the
arguments verbatim and they satisfy the validation rules. -/
theorem init_ok_inv {α : Type} (m : ℚ) (c : List α → Except String (List ℚ))
    (dr : Option (ℚ × ℚ)) (meta : List (String × String)) (r : InitResult α)
    (h : init m c dr meta = .ok r) :
    r.detector.margin = m ∧ r.detector.density_range = dr ∧
    r.detector.metadata = meta ∧ r.detector.classifier = c ∧
    (0 < m ∧ m ≤ 1/2) ∧
    ∀ lo hi, dr = some (lo, hi) →
      ¬ (lo > hi ∨ lo < 0 ∨ 1 < lo ∨ hi < 0 ∨ 1 < hi) := by
  unfold init at h
  by_cases hm : ¬ (0 < m ∧ m ≤ 1/2)
  · rw [if_pos hm] at h
    cases h
  · rw [if_neg hm] at h
    by_cases hbb : badRangeB dr = true
    · rw [if_pos hbb] at h
      cases h
    · rw [if_neg hbb] at h
      cases h
      refine ⟨rfl, rfl, rfl, rfl, not_not.mp hm, ?_⟩
      intro lo hi hcon hbad
      subst hcon
      exact hbb (by
        simp only [badRangeB, decide_eq_true_eq]
        exact hbad)

/-- C8: deserialising a serialised detector succeeds (the saved margin and
range passed the same validation once already) and yields a detector whose
`margin`, `density_range` and `metadata` equal the original's. -/
theorem save_load_roundtrip {α : Type} (m : ℚ)
    (c : List α → Except String (List ℚ)) (dr : Option (ℚ × ℚ))
    (meta : List (String × String)) (r : InitResult α)
    (h : init m c dr meta = .ok r)
    (c2 : List α → Except String (List ℚ)) :
    ∃ r2 : InitResult α,
      load_detector (save_detector r.detector) c2 = .ok r2 ∧
      r2.detector.margin = r.detector.margin ∧
      r2.detector.density_range = r.detector.density_range ∧
      r2.detector.metadata = r.detector.metadata := by
  obtain ⟨hmar, hdr, hmeta, _, hm, hvalid⟩ := init_ok_inv m c dr meta r h
  have hbb : badRangeB dr = false := by
    cases dr with
    | none => rfl
    | some p =>
        obtain ⟨lo, hi⟩ := p
        rw [Bool.eq_false_iff, Ne]
        intro hcon
        rw [show badRangeB (some (lo, hi)) =
            decide (lo > hi ∨ lo < 0 ∨ 1 < lo ∨ hi < 0 ∨ 1 < hi) from rfl,
          decide_eq_true_eq] at hcon
        exact hvalid lo hi rfl hcon
  refine ⟨⟨⟨m, c2, dr, meta⟩, if dr.isNone then [missingRangeWarning] else []⟩,
    ?_, ?_, ?_, ?_⟩
  · unfold load_detector save_detector
    rw [hmar, hdr, hmeta]
    unfold init
    rw [if_neg (not_not_intro hm), if_neg (by rw [hbb]; intro hcon; cases hcon)]
  · rw [hmar]
  · rw [hdr]
  · rw [hmeta]

/-- The concrete construction used by the C8 and C10 witnesses. -/
theorem w8_init_eval :
    init (1/10) w1D.classifier (some (0, 1/2)) [("key", "value")] =
      .ok ⟨⟨1/10, w1D.classifier, some (0, 1/2), [("key", "value")]⟩, []⟩ := by
  have hm : (0 : ℚ) < 1/10 ∧ (1 : ℚ)/10 ≤ 1/2 := ⟨by norm_num, by norm_num⟩
  have hbb : badRangeB (some ((0 : ℚ), (1 : ℚ)/2)) = false := by
    rw [show badRangeB (some ((0 : ℚ), (1 : ℚ)/2)) =
        decide ((0 : ℚ) > 1/2 ∨ (0 : ℚ) < 0 ∨ 1 < (0 : ℚ) ∨
          (1 : ℚ)/2 < 0 ∨ 1 < (1 : ℚ)/2) from rfl,
      decide_eq_false_iff_not]
    intro hcon
    rcases hcon with hcon | hcon | hcon | hcon | hcon <;> norm_num at hcon
  unfold init
  rw [if_neg (not_not_intro hm), if_neg (by rw [hbb]; intro hcon; cases hcon)]
  rfl

/-- Witness for C8 on the concrete construction, reattaching a different
classifier. -/
theorem save_load_roundtrip_witness :
    ∃ r2 : InitResult ℕ,
      load_detector (save_detector w8R.detector) w2D.classifier = .ok r2 ∧
      r2.detector.margin = w8R.detector.margin ∧
      r2.detector.density_range = w8R.detector.density_range ∧
      r2.detector.metadata = w8R.detector.metadata :=
  save_load_roundtrip (1/10) w1D.classifier (some (0, 1/2)) [("key", "value")]
    w8R w8_init_eval w2D.classifier

/-- C9: `score` in state-passing form leaves the detector unchanged, and a
second call on the returned state yields the identical output — the
function is pure and idempotent for a fixed batch and classifier (the
embedded classifier is a function, hence deterministic). -/
theorem score_pure_idempotent {α : Type} (d : MarginDensityDrift α)
    (batch : List α) :
    (d.scoreS batch).2 = d ∧
    ((d.scoreS batch).2.scoreS batch).1 = (d.scoreS batch).1 :=
  ⟨rfl, rfl⟩

/-- The state after running any sequence of `predict` calls is the
original detector. -/
theorem runPredicts_state {α : Type} (d : MarginDensityDrift α)
    (batches : List (List α)) : (runPredicts d batches).2 = d := by
  induction batches with
  | nil => rfl
  | cons b bs ih => exact ih

/-- Every successful result in a `predict` sequence echoes the detector's
margin and density range. -/
theorem runPredicts_results {α : Type} (d : MarginDensityDrift α) :
    ∀ (batches : List (List α)) (res : Except DetectError DriftResult),
      res ∈ (runPredicts d batches).1 → ∀ pr : DriftResult, res = .ok pr →
        pr.data.margin = d.margin ∧ pr.data.density_range = d.density_range := by
  intro batches
  induction batches with
  | nil =>
      intro res hres
      cases hres
  | cons b bs ih =>
      intro res hres pr hpr
      rw [show (runPredicts d (b :: bs)).1 =
          d.predict b :: (runPredicts d bs).1 from rfl] at hres
      rcases List.mem_cons.mp hres with h1 | h1
      · obtain ⟨_, hmar, hrange, _⟩ :=
          predict_ok_inv d b pr (h1.symm.trans hpr)
        exact ⟨hmar, hrange⟩
      · exact ih res h1 pr hpr

/-- C10: for a detector built by construction, any sequence of `predict`
calls leaves the detector unchanged, and the `margin` and `density_range`
fields of every successful result equal the values supplied at
construction. -/
theorem predict_frame_config {α : Type} (m : ℚ)
    (c : List α → Except String (List ℚ)) (dr : Option (ℚ × ℚ))
    (meta : List (String × String)) (r : InitResult α)
    (h : init m c dr meta = .ok r) (batches : List (List α)) :
    (runPredicts r.detector batches).2 = r.detector ∧
    ∀ res ∈ (runPredicts r.detector batches).1, ∀ pr : DriftResult,
      res = .ok pr → pr.data.margin = m ∧ pr.data.density_range = dr := by
  obtain ⟨hmar, hdr, _, _, _, _⟩ := init_ok_inv m c dr meta r h
  refine ⟨runPredicts_state _ _, ?_⟩
  intro res hres pr hpr
  obtain ⟨h1, h2⟩ := runPredicts_results r.detector batches res hres pr hpr
  exact ⟨h1.trans hmar, h2.trans hdr⟩

/-- Witness for C10 on the concrete construction and two batches. -/
theorem predict_frame_config_witness :
    (runPredicts w8R.detector [[0], [1]]).2 = w8R.detector ∧
    ∀ res ∈ (runPredicts w8R.detector [[0], [1]]).1, ∀ pr : DriftResult,
      res = .ok pr →
        pr.data.margin = 1/10 ∧ pr.data.density_range = some (0, 1/2) :=
  predict_frame_config (1/10) w1D.classifier (some (0, 1/2))
    [("key", "value")] w8R w8_init_eval [[0], [1]]

end MD3
